import Mathlib

/-
Shallow embedding of the balance-monitoring core of the repository:
src/database.py (class Database), src/monitor.py (class BalanceMonitor),
src/config.py (class Config) and the result shape of
src/aliyun_client.py (AliyunClient.get_credit_info).

Balances and thresholds (SQLite REAL columns, Python floats carrying
currency amounts) are modelled as rationals; timestamps as naturals.
-/

/-- Alert kinds recorded by the monitor; the source uses the strings
"low_balance" (monitor.py line 117) and "balance_drop" (monitor.py line 144). -/
inductive AlertType
  | low_balance
  | balance_drop
deriving DecidableEq

/-- One row of the aliyun_accounts table (database.py lines 24-34). The
integer id column is omitted; no claim mentions it. -/
structure AliyunAccount where
  uid : String
  remark : String
  low_balance_threshold : ℚ
  drop_threshold : ℚ
  last_balance : ℚ
  created_at : ℕ
  updated_at : ℕ
deriving DecidableEq

/-- One row of the alert_history table (database.py lines 53-62); the rendered
message column, which embeds a wall-clock timestamp, is not modelled. -/
structure AlertRecord where
  uid : String
  alert_type : AlertType
  balance : ℚ
  threshold : ℚ
deriving DecidableEq

/-- The three tables the monitor touches (database.py init_database).
balance_history rows are (uid, balance) pairs; the system_config table is
not needed by any claim. -/
structure Database where
  accounts : List AliyunAccount
  balance_history : List (String × ℚ)
  alert_history : List AlertRecord
deriving DecidableEq

/-- Database.update_balance (database.py lines 173-201): sets last_balance and
updated_at on the account row with the given uid, and appends one
balance_history row (the insert happens even when no account row matches,
mirroring the two separate SQL statements). -/
def Database.update_balance (db : Database) (uid : String) (balance : ℚ)
    (now : ℕ) : Database :=
  { db with
    accounts := db.accounts.map fun a =>
      if a.uid = uid then { a with last_balance := balance, updated_at := now }
      else a
    balance_history := db.balance_history ++ [(uid, balance)] }

/-- Database.record_alert (database.py lines 235-253): appends one
alert_history row. -/
def Database.record_alert (db : Database) (uid : String) (t : AlertType)
    (balance threshold : ℚ) : Database :=
  { db with alert_history := db.alert_history ++ [⟨uid, t, balance, threshold⟩] }

/-- Database.bind_aliyun_account (database.py lines 79-98): INSERT OR REPLACE
keyed on the unique uid column deletes any existing row with that uid and
inserts a fresh one; columns absent from the insert list take their schema
defaults (database.py lines 24-34), so last_balance becomes 0 and created_at
the current time. Returns True. -/
def Database.bind_aliyun_account (db : Database) (uid remark : String)
    (low_threshold drop_threshold : ℚ) (now : ℕ) : Database × Bool :=
  ({ db with accounts :=
      db.accounts.filter (fun a => a.uid != uid) ++
        [⟨uid, remark, low_threshold, drop_threshold, 0, now, now⟩] },
   true)

/-- Database.unbind_aliyun_account (database.py lines 100-112): deletes the
account row, then the balance_history rows, then the alert_history rows for
the uid; the returned Bool is cursor.rowcount > 0 taken after the LAST
execute, i.e. whether any alert_history rows were removed. -/
def Database.unbind_aliyun_account (db : Database) (uid : String) :
    Database × Bool :=
  let alertsDeleted := (db.alert_history.filter (fun r => r.uid == uid)).length
  ({ accounts := db.accounts.filter (fun a => a.uid != uid),
     balance_history := db.balance_history.filter (fun h => h.1 != uid),
     alert_history := db.alert_history.filter (fun r => r.uid != uid) },
   decide (0 < alertsDeleted))

/-- Database.get_aliyun_account (database.py lines 144-171). -/
def Database.get_aliyun_account (db : Database) (uid : String) :
    Option AliyunAccount :=
  db.accounts.find? (fun a => a.uid == uid)

/-- Database.get_aliyun_accounts (database.py lines 114-142); the ORDER BY
created_at clause is not modelled, no claim depends on the order. -/
def Database.get_aliyun_accounts (db : Database) : List AliyunAccount :=
  db.accounts

/-- Outcome of fetching one balance during a check. The first two variants
are the shapes AliyunClient.get_credit_info can return (aliyun_client.py
lines 40-112): None when the client is not initialised, or a dict with a
success flag and, on success, the available_credit value. The raised variant
models an unexpected exception escaping the per-account check, which
BalanceMonitor._check_all_accounts catches (monitor.py lines 68-71). -/
inductive ProviderResult
  | noResult
  | info (success : Bool) (available_credit : ℚ)
  | raised (msg : String)
deriving DecidableEq

/-- Monitor-visible effects: the database plus the alert messages handed to
the Telegram bot, one (admin_chat_id, alert) entry per admin per alert
(monitor.py lines 119-124 and 146-151). -/
structure MonitorState where
  db : Database
  dispatched : List (Int × AlertRecord)
deriving DecidableEq

/-- BalanceMonitor._send_low_balance_alert (monitor.py lines 102-124): records
a low_balance alert, then sends it to every admin chat id. -/
def sendLowBalanceAlert (admins : List Int) (st : MonitorState)
    (account : AliyunAccount) (current_balance : ℚ) : MonitorState :=
  let r : AlertRecord :=
    ⟨account.uid, .low_balance, current_balance, account.low_balance_threshold⟩
  { db := st.db.record_alert account.uid .low_balance current_balance
      account.low_balance_threshold,
    dispatched := st.dispatched ++ admins.map (fun a => (a, r)) }

/-- BalanceMonitor._send_drop_alert (monitor.py lines 126-151): records a
balance_drop alert, then sends it to every admin chat id. -/
def sendDropAlert (admins : List Int) (st : MonitorState)
    (account : AliyunAccount) (current_balance : ℚ) : MonitorState :=
  let r : AlertRecord :=
    ⟨account.uid, .balance_drop, current_balance, account.drop_threshold⟩
  { db := st.db.record_alert account.uid .balance_drop current_balance
      account.drop_threshold,
    dispatched := st.dispatched ++ admins.map (fun a => (a, r)) }

/-- The low-balance test of monitor.py line 93. -/
def lowConditionFires (current_balance low_threshold : ℚ) : Bool :=
  current_balance ≤ low_threshold

/-- The drop test of monitor.py line 97. -/
def dropConditionFires (last_balance current_balance drop_threshold : ℚ) :
    Bool :=
  last_balance > 0 ∧ last_balance - current_balance ≥ drop_threshold

/-- BalanceMonitor._check_account_balance (monitor.py lines 73-100): fetch the
balance; when the result is missing or unsuccessful stop without touching any
state; otherwise update the stored balance (which appends a history row),
then test the low-balance condition against the fresh value and the drop
condition against the last_balance captured from the account row BEFORE the
update. An unexpected exception propagates to the caller as an error. -/
def checkAccountBalance (provider : String → ProviderResult)
    (admins : List Int) (now : ℕ) (st : MonitorState)
    (account : AliyunAccount) : Except String MonitorState :=
  match provider account.uid with
  | .raised msg => .error msg
  | .noResult => .ok st
  | .info success available_credit =>
    if !success then .ok st
    else
      let current_balance := available_credit
      let st1 : MonitorState :=
        { st with db := st.db.update_balance account.uid current_balance now }
      let st2 :=
        if lowConditionFires current_balance account.low_balance_threshold
        then sendLowBalanceAlert admins st1 account current_balance
        else st1
      let st3 :=
        if dropConditionFires account.last_balance current_balance
            account.drop_threshold
        then sendDropAlert admins st2 account current_balance
        else st2
      .ok st3

/-- The loop body of BalanceMonitor._check_all_accounts (monitor.py lines
67-71): each per-account check runs inside try/except, so an account whose
check raises leaves the state as it was and the loop moves on. -/
def checkStep (provider : String → ProviderResult) (admins : List Int)
    (now : ℕ) (st : MonitorState) (account : AliyunAccount) : MonitorState :=
  match checkAccountBalance provider admins now st account with
  | .ok st' => st'
  | .error _ => st

/-- The per-account sweep over an explicit account list (monitor.py lines
67-71). -/
def checkAccountsList (provider : String → ProviderResult) (admins : List Int)
    (now : ℕ) (st : MonitorState) (accounts : List AliyunAccount) :
    MonitorState :=
  accounts.foldl (checkStep provider admins now) st

/-- BalanceMonitor._check_all_accounts (monitor.py lines 59-71): snapshot the
account list, return at once when it is empty, otherwise check each account
in order. -/
def checkAllAccounts (provider : String → ProviderResult) (admins : List Int)
    (now : ℕ) (st : MonitorState) : MonitorState :=
  let accounts := st.db.get_aliyun_accounts
  if accounts.isEmpty then st
  else checkAccountsList provider admins now st accounts

namespace Config

/-- Config.CHECK_INTERVAL (config.py line 19): seconds between sweeps, 300
when the CHECK_INTERVAL environment variable is absent. -/
def CHECK_INTERVAL_default : ℕ := 300

end Config

/-- The fixed backoff of monitor.py line 57: after a sweep error the loop
sleeps 60 seconds before retrying. -/
def fallbackBackoff : ℕ := 60

/-- Outcome of one sweep attempt as seen by the loop body of
BalanceMonitor._monitor_loop (monitor.py lines 49-57): normal completion,
asyncio.CancelledError, or any other exception. -/
inductive SweepOutcome
  | ok
  | cancelled
  | errored
deriving DecidableEq

/-- What one iteration of the while loop does next. -/
inductive LoopAction
  | exitLoop
  | continueAfter (sleepSeconds : ℕ)
deriving DecidableEq

/-- One iteration of BalanceMonitor._monitor_loop (monitor.py lines 47-57):
exit when the monitoring flag is cleared; after a normal sweep sleep the
configured interval and continue; on CancelledError break; on any other
exception sleep the fixed 60-second backoff and continue. -/
def monitorLoopIteration (monitoring : Bool) (outcome : SweepOutcome)
    (check_interval : ℕ) : LoopAction :=
  if !monitoring then .exitLoop
  else
    match outcome with
    | .ok => .continueAfter check_interval
    | .cancelled => .exitLoop
    | .errored => .continueAfter fallbackBackoff

/-- The lifecycle fields of BalanceMonitor (monitor.py lines 16-17): the
monitoring flag plus a count of scheduler tasks created and still alive. -/
structure LifecycleState where
  monitoring : Bool
  activeTasks : ℕ
deriving DecidableEq

/-- BalanceMonitor.start_monitoring (monitor.py lines 19-31): return at once
if already monitoring; return without any state change when the aliyun
client is not configured; otherwise set the flag and create one scheduler
task. -/
def start_monitoring (is_configured : Bool) (s : LifecycleState) :
    LifecycleState :=
  if s.monitoring then s
  else if !is_configured then s
  else { monitoring := true, activeTasks := s.activeTasks + 1 }

/-- Number of alert_history rows of a given kind. -/
def countAlerts (t : AlertType) (l : List AlertRecord) : ℕ :=
  (l.filter (fun r => r.alert_type == t)).length

/-- Number of dispatched bot messages carrying an alert of a given kind. -/
def countDispatched (t : AlertType) (l : List (Int × AlertRecord)) : ℕ :=
  (l.filter (fun e => e.2.alert_type == t)).length

lemma countAlerts_append (t : AlertType) (l₁ l₂ : List AlertRecord) :
    countAlerts t (l₁ ++ l₂) = countAlerts t l₁ + countAlerts t l₂ := by
  simp [countAlerts, List.filter_append]

lemma countDispatched_append (t : AlertType) (l₁ l₂ : List (Int × AlertRecord)) :
    countDispatched t (l₁ ++ l₂) = countDispatched t l₁ + countDispatched t l₂ := by
  simp [countDispatched, List.filter_append]

lemma countDispatched_map (t : AlertType) (r : AlertRecord) (admins : List Int) :
    countDispatched t (admins.map (fun a => (a, r))) =
      if r.alert_type == t then admins.length else 0 := by
  induction admins with
  | nil => simp [countDispatched]
  | cons a as ih =>
      simp only [List.map_cons, countDispatched, List.filter_cons] at ih ⊢
      by_cases h : r.alert_type == t <;> simp [h] at ih ⊢ <;> exact ih

lemma checkAccountBalance_success (provider : String → ProviderResult)
    (admins : List Int) (now : ℕ) (st : MonitorState) (account : AliyunAccount)
    (c : ℚ) (hp : provider account.uid = .info true c) :
    checkAccountBalance provider admins now st account = .ok
      (let st1 : MonitorState :=
         { st with db := st.db.update_balance account.uid c now }
       let st2 :=
         if lowConditionFires c account.low_balance_threshold
         then sendLowBalanceAlert admins st1 account c else st1
       if dropConditionFires account.last_balance c account.drop_threshold
       then sendDropAlert admins st2 account c else st2) := by
  unfold checkAccountBalance
  rw [hp]
  rfl

lemma dropConditionFires_iff (p c d : ℚ) :
    dropConditionFires p c d = true ↔ (p > 0 ∧ p - c ≥ d) := by
  simp [dropConditionFires]

lemma lowConditionFires_iff (c L : ℚ) :
    lowConditionFires c L = true ↔ c ≤ L := by
  simp [lowConditionFires]

lemma checkStep_success (provider : String → ProviderResult)
    (admins : List Int) (now : ℕ) (st : MonitorState) (account : AliyunAccount)
    (c : ℚ) (hp : provider account.uid = .info true c) :
    checkStep provider admins now st account =
      (let st1 : MonitorState :=
         { st with db := st.db.update_balance account.uid c now }
       let st2 :=
         if lowConditionFires c account.low_balance_threshold
         then sendLowBalanceAlert admins st1 account c else st1
       if dropConditionFires account.last_balance c account.drop_threshold
       then sendDropAlert admins st2 account c else st2) := by
  simp [checkStep, checkAccountBalance_success provider admins now st account c hp]

/-- C1: in a successful check of one account with drop threshold at least 0,
a balance_drop alert is recorded, and dispatched to every admin, exactly when
the previous balance is positive and the fall from previous to current is at
least the threshold; with previous balance 0 it never fires, and a strict
balance increase never fires it. -/
theorem drop_condition_characterisation (provider : String → ProviderResult)
    (admins : List Int) (now : ℕ) (st : MonitorState) (account : AliyunAccount)
    (c : ℚ) (hp : provider account.uid = .info true c)
    (hd : 0 ≤ account.drop_threshold) :
    (countAlerts .balance_drop
        (checkStep provider admins now st account).db.alert_history =
      countAlerts .balance_drop st.db.alert_history +
        (if account.last_balance > 0 ∧
            account.last_balance - c ≥ account.drop_threshold
         then 1 else 0)) ∧
    (countDispatched .balance_drop
        (checkStep provider admins now st account).dispatched =
      countDispatched .balance_drop st.dispatched +
        (if account.last_balance > 0 ∧
            account.last_balance - c ≥ account.drop_threshold
         then admins.length else 0)) ∧
    (account.last_balance = 0 →
      countAlerts .balance_drop
          (checkStep provider admins now st account).db.alert_history =
        countAlerts .balance_drop st.db.alert_history) ∧
    (account.last_balance < c →
      countAlerts .balance_drop
          (checkStep provider admins now st account).db.alert_history =
        countAlerts .balance_drop st.db.alert_history) := by
  have hstep := checkStep_success provider admins now st account c hp
  have halert : countAlerts .balance_drop
      (checkStep provider admins now st account).db.alert_history =
      countAlerts .balance_drop st.db.alert_history +
        (if account.last_balance > 0 ∧
            account.last_balance - c ≥ account.drop_threshold
         then 1 else 0) := by
    rw [hstep]
    by_cases hdrop : account.last_balance > 0 ∧
        account.last_balance - c ≥ account.drop_threshold
    · have hB : dropConditionFires account.last_balance c account.drop_threshold
          = true := (dropConditionFires_iff _ _ _).mpr hdrop
      by_cases hlow : lowConditionFires c account.low_balance_threshold <;>
        simp [hB, hlow, hdrop, sendDropAlert, sendLowBalanceAlert,
          Database.record_alert, Database.update_balance, countAlerts_append,
          countAlerts]
    · have hB : dropConditionFires account.last_balance c account.drop_threshold
          = false := by
        simp only [dropConditionFires]
        exact decide_eq_false hdrop
      by_cases hlow : lowConditionFires c account.low_balance_threshold <;>
        simp [hB, hlow, hdrop, sendDropAlert, sendLowBalanceAlert,
          Database.record_alert, Database.update_balance, countAlerts_append,
          countAlerts]
  have hdisp : countDispatched .balance_drop
      (checkStep provider admins now st account).dispatched =
      countDispatched .balance_drop st.dispatched +
        (if account.last_balance > 0 ∧
            account.last_balance - c ≥ account.drop_threshold
         then admins.length else 0) := by
    rw [hstep]
    by_cases hdrop : account.last_balance > 0 ∧
        account.last_balance - c ≥ account.drop_threshold
    · have hB : dropConditionFires account.last_balance c account.drop_threshold
          = true := (dropConditionFires_iff _ _ _).mpr hdrop
      by_cases hlow : lowConditionFires c account.low_balance_threshold <;>
        simp [hB, hlow, hdrop, sendDropAlert, sendLowBalanceAlert,
          Database.record_alert, Database.update_balance, countDispatched_append,
          countDispatched_map]
    · have hB : dropConditionFires account.last_balance c account.drop_threshold
          = false := by
        simp only [dropConditionFires]
        exact decide_eq_false hdrop
      by_cases hlow : lowConditionFires c account.low_balance_threshold <;>
        simp [hB, hlow, hdrop, sendDropAlert, sendLowBalanceAlert,
          Database.record_alert, Database.update_balance, countDispatched_append,
          countDispatched_map]
  refine ⟨halert, hdisp, ?_, ?_⟩
  · intro h0
    have hno : ¬(account.last_balance > 0 ∧
        account.last_balance - c ≥ account.drop_threshold) := by
      rintro ⟨hgt, -⟩
      rw [h0] at hgt
      exact lt_irrefl 0 hgt
    rw [halert, if_neg hno, Nat.add_zero]
  · intro hlt
    have hno : ¬(account.last_balance > 0 ∧
        account.last_balance - c ≥ account.drop_threshold) := by
      rintro ⟨hgt, hge⟩
      linarith
    rw [halert, if_neg hno, Nat.add_zero]

/-- C2: in a successful check of one account, a low_balance alert is recorded,
and dispatched to every admin, exactly when the fresh balance is at or below
the low threshold. The state st and the stored previous balance
account.last_balance are arbitrary and absent from the fired condition, so
the alert neither depends on history nor is debounced: it fires again on
every consecutive cycle while the balance stays at or below the threshold. -/
theorem low_condition_characterisation (provider : String → ProviderResult)
    (admins : List Int) (now : ℕ) (st : MonitorState) (account : AliyunAccount)
    (c : ℚ) (hp : provider account.uid = .info true c) :
    (countAlerts .low_balance
        (checkStep provider admins now st account).db.alert_history =
      countAlerts .low_balance st.db.alert_history +
        (if c ≤ account.low_balance_threshold then 1 else 0)) ∧
    (countDispatched .low_balance
        (checkStep provider admins now st account).dispatched =
      countDispatched .low_balance st.dispatched +
        (if c ≤ account.low_balance_threshold then admins.length else 0)) := by
  have hstep := checkStep_success provider admins now st account c hp
  rw [hstep]
  by_cases hlow : c ≤ account.low_balance_threshold
  · have hL : lowConditionFires c account.low_balance_threshold = true :=
      (lowConditionFires_iff _ _).mpr hlow
    by_cases hdropB : dropConditionFires account.last_balance c
        account.drop_threshold <;>
      constructor <;>
        simp [hL, hdropB, hlow, sendDropAlert, sendLowBalanceAlert,
          Database.record_alert, Database.update_balance, countAlerts_append,
          countDispatched_append, countDispatched_map, countAlerts]
  · have hL : lowConditionFires c account.low_balance_threshold = false := by
      simp only [lowConditionFires]
      exact decide_eq_false hlow
    by_cases hdropB : dropConditionFires account.last_balance c
        account.drop_threshold <;>
      constructor <;>
        simp [hL, hdropB, hlow, sendDropAlert, sendLowBalanceAlert,
          Database.record_alert, Database.update_balance, countAlerts_append,
          countDispatched_append, countDispatched_map, countAlerts]

def witnessAccount : AliyunAccount := ⟨"acct-1", "demo", 1000, 500, 2000, 0, 0⟩

def witnessState : MonitorState := ⟨⟨[witnessAccount], [], []⟩, []⟩

def witnessProvider : String → ProviderResult := fun _ => .info true 1400

theorem drop_condition_characterisation_witness :
    countAlerts .balance_drop
      (checkStep witnessProvider [777] 1 witnessState
        witnessAccount).db.alert_history = 1 := by
  have h := (drop_condition_characterisation witnessProvider [777] 1
    witnessState witnessAccount 1400 rfl (by norm_num [witnessAccount])).1
  rw [h, if_pos (by constructor <;> norm_num [witnessAccount])]
  norm_num [countAlerts, witnessState]

theorem low_condition_characterisation_witness :
    countAlerts .low_balance
      (checkStep (fun _ => .info true 900) [777] 1 witnessState
        witnessAccount).db.alert_history = 1 := by
  have h := (low_condition_characterisation (fun _ => .info true 900) [777] 1
    witnessState witnessAccount 900 rfl).1
  rw [h, if_pos (by norm_num [witnessAccount])]
  norm_num [countAlerts, witnessState]

/-- C3: a check whose balance fetch yields no result, or a result whose
success flag is false, terminates with the state untouched: the account row
(including last_balance) is unchanged, no balance_history row is appended,
and no alert is recorded or dispatched. -/
theorem failed_fetch_no_mutation (provider : String → ProviderResult)
    (admins : List Int) (now : ℕ) (st : MonitorState) (account : AliyunAccount)
    (h : provider account.uid = .noResult ∨
         ∃ c, provider account.uid = .info false c) :
    checkAccountBalance provider admins now st account = .ok st := by
  rcases h with hm | ⟨c, hm⟩
  · unfold checkAccountBalance
    rw [hm]
  · unfold checkAccountBalance
    rw [hm]
    rfl

theorem failed_fetch_no_mutation_witness :
    checkAccountBalance (fun _ => .noResult) [777] 0 witnessState
      witnessAccount = .ok witnessState :=
  failed_fetch_no_mutation (fun _ => .noResult) [777] 0 witnessState
    witnessAccount (Or.inl rfl)

/-- C4: an account whose check fails (missing or unsuccessful provider result,
or an unexpected exception escaping its check) does not abort the sweep: the
sweep over any list containing it equals the sweep over the same list with
that account removed, so every other account receives its full check. -/
theorem sweep_isolation (provider : String → ProviderResult) (admins : List Int)
    (now : ℕ) (st : MonitorState) (xs ys : List AliyunAccount)
    (a : AliyunAccount)
    (h : (∃ m, provider a.uid = .raised m) ∨ provider a.uid = .noResult ∨
         ∃ c, provider a.uid = .info false c) :
    checkAccountsList provider admins now st (xs ++ a :: ys) =
      checkAccountsList provider admins now st (xs ++ ys) := by
  have hstep : ∀ s : MonitorState, checkStep provider admins now s a = s := by
    intro s
    rcases h with ⟨m, hm⟩ | hm | ⟨c, hm⟩ <;>
      simp [checkStep, checkAccountBalance, hm]
  simp only [checkAccountsList, List.foldl_append, List.foldl_cons, hstep]

theorem sweep_isolation_witness :
    checkAccountsList (fun _ => .noResult) [777] 0 witnessState
        ([] ++ witnessAccount :: []) =
      checkAccountsList (fun _ => .noResult) [777] 0 witnessState ([] ++ []) :=
  sweep_isolation (fun _ => .noResult) [777] 0 witnessState [] []
    witnessAccount (Or.inr (Or.inl rfl))

/-- C6 counterexample: after a sweep error the loop continues with the fixed
60-second backoff, and with the default configured interval of 300 seconds
(config.py line 19) that backoff is not longer than the interval. -/
theorem fallback_backoff_not_longer :
    monitorLoopIteration true .errored Config.CHECK_INTERVAL_default =
      .continueAfter fallbackBackoff ∧
    ¬ fallbackBackoff > Config.CHECK_INTERVAL_default :=
  ⟨rfl, by decide⟩

/-- C6 amended: on an unexpected sweep error the loop does not terminate: it
logs and continues after the fixed 60-second fallback backoff, which is
distinct from the default configured interval of 300 seconds but shorter, not
longer; an iteration exits only when the monitoring flag has been cleared or
the sweep observed cancellation, both of which only stop_monitoring causes. -/
theorem loop_survives_sweep_error (i : ℕ) (m : Bool) (o : SweepOutcome) :
    monitorLoopIteration true .errored i = .continueAfter fallbackBackoff ∧
    fallbackBackoff ≠ Config.CHECK_INTERVAL_default ∧
    fallbackBackoff < Config.CHECK_INTERVAL_default ∧
    (monitorLoopIteration m o i = .exitLoop ↔ (m = false ∨ o = .cancelled)) := by
  refine ⟨rfl, by decide, by decide, ?_⟩
  cases m <;> cases o <;> simp [monitorLoopIteration]

/-- C8: from the Stopped state with no live scheduler task, starting twice
with a configured client equals starting once and yields the Running flag
with exactly one scheduler task; starting with an unconfigured client changes
nothing at all. -/
theorem start_monitoring_idempotent (s : LifecycleState)
    (hm : s.monitoring = false) (ht : s.activeTasks = 0) :
    start_monitoring true (start_monitoring true s) = start_monitoring true s ∧
    (start_monitoring true s).monitoring = true ∧
    (start_monitoring true s).activeTasks = 1 ∧
    start_monitoring false s = s := by
  simp [start_monitoring, hm, ht]

theorem start_monitoring_idempotent_witness :
    start_monitoring true (start_monitoring true ⟨false, 0⟩) =
      start_monitoring true ⟨false, 0⟩ ∧
    (start_monitoring true ⟨false, 0⟩).monitoring = true ∧
    (start_monitoring true ⟨false, 0⟩).activeTasks = 1 ∧
    start_monitoring false ⟨false, 0⟩ = (⟨false, 0⟩ : LifecycleState) :=
  start_monitoring_idempotent ⟨false, 0⟩ rfl rfl

/-- C9: the Bool returned by unbind reflects only the row count of its final
delete, the alert_history delete: for a bound uid with no alert rows the
account row and its balance history rows are removed yet the call returns
false, while with at least one alert row it returns true. -/
theorem unbind_returns_alert_rowcount (db : Database) (uid : String)
    (hb : (db.get_aliyun_account uid).isSome) :
    ((db.alert_history.filter (fun r => r.uid == uid)).length = 0 →
      (db.unbind_aliyun_account uid).2 = false) ∧
    (0 < (db.alert_history.filter (fun r => r.uid == uid)).length →
      (db.unbind_aliyun_account uid).2 = true) ∧
    (db.unbind_aliyun_account uid).1.get_aliyun_account uid = none ∧
    (db.unbind_aliyun_account uid).1.balance_history.filter
      (fun h => h.1 == uid) = [] := by
  refine ⟨?_, ?_, ?_, ?_⟩
  · intro h
    simp [Database.unbind_aliyun_account, h]
  · intro h
    simp only [Database.unbind_aliyun_account]
    exact decide_eq_true h
  · simp only [Database.unbind_aliyun_account, Database.get_aliyun_account]
    rw [List.find?_eq_none]
    intro x hx
    simp only [List.mem_filter] at hx
    simpa using hx.2
  · simp only [Database.unbind_aliyun_account]
    rw [List.filter_eq_nil_iff]
    intro x hx
    simp only [List.mem_filter] at hx
    simpa using hx.2

theorem unbind_returns_alert_rowcount_witness :
    (witnessState.db.unbind_aliyun_account "acct-1").2 = false ∧
    (witnessState.db.unbind_aliyun_account "acct-1").1.get_aliyun_account
      "acct-1" = none := by
  have h := unbind_returns_alert_rowcount witnessState.db "acct-1" (by rfl)
  exact ⟨h.1 (by rfl), h.2.2.1⟩

/-- C10: rebinding an already-bound uid replaces the whole account row: the
new label and thresholds are stored, last_balance is reset to the schema
default 0 and created_at to the current time, discarding the previously
observed balance; and a drop evaluation that sees previous balance 0 can
never fire. -/
theorem bind_replaces_row (db : Database) (uid remark : String)
    (low_threshold drop_threshold : ℚ) (now : ℕ)
    (hb : (db.get_aliyun_account uid).isSome) :
    (db.bind_aliyun_account uid remark low_threshold drop_threshold now).2
      = true ∧
    (db.bind_aliyun_account uid remark low_threshold drop_threshold
        now).1.get_aliyun_account uid =
      some ⟨uid, remark, low_threshold, drop_threshold, 0, now, now⟩ ∧
    ∀ c d : ℚ, dropConditionFires 0 c d = false := by
  refine ⟨rfl, ?_, ?_⟩
  · simp only [Database.bind_aliyun_account, Database.get_aliyun_account]
    rw [List.find?_append]
    have h1 : (db.accounts.filter (fun a => a.uid != uid)).find?
        (fun a => a.uid == uid) = none := by
      rw [List.find?_eq_none]
      intro x hx
      simp only [List.mem_filter] at hx
      simpa using hx.2
    rw [h1]
    simp [List.find?]
  · intro c d
    simp [dropConditionFires]

theorem bind_replaces_row_witness :
    (witnessState.db.bind_aliyun_account "acct-1" "new" 2 3 9).1.get_aliyun_account
      "acct-1" = some ⟨"acct-1", "new", 2, 3, 0, 9, 9⟩ :=
  (bind_replaces_row witnessState.db "acct-1" "new" 2 3 9 (by rfl)).2.1

/-- The scenario account of spec section 8: low threshold 1000, drop
threshold 500, freshly bound so last_balance is the schema default 0. -/
def scenarioAccount : AliyunAccount := ⟨"acct-1", "demo", 1000, 500, 0, 0, 0⟩

/-- The scenario account row after the first successful check. -/
def scenarioAccount1 : AliyunAccount := ⟨"acct-1", "demo", 1000, 500, 2000, 0, 1⟩

/-- The scenario account row after the second successful check. -/
def scenarioAccount2 : AliyunAccount := ⟨"acct-1", "demo", 1000, 500, 1400, 0, 2⟩

def scenarioState0 : MonitorState := ⟨⟨[scenarioAccount], [], []⟩, []⟩

def scenarioState1 : MonitorState :=
  checkAllAccounts (fun _ => .info true 2000) [777] 1 scenarioState0

def scenarioState2 : MonitorState :=
  checkAllAccounts (fun _ => .info true 1400) [777] 2 scenarioState1

def scenarioState3 : MonitorState :=
  checkAllAccounts (fun _ => .info true 900) [777] 3 scenarioState2

lemma scenarioState1_eq :
    scenarioState1 =
      ⟨⟨[scenarioAccount1], [("acct-1", 2000)], []⟩, []⟩ := by
  have h0 : scenarioState1 =
      checkStep (fun _ => .info true 2000) [777] 1 scenarioState0
        scenarioAccount := rfl
  have hlow : lowConditionFires 2000 scenarioAccount.low_balance_threshold
      = false := by
    simp only [lowConditionFires]
    exact decide_eq_false (by norm_num [scenarioAccount])
  have hdrop : dropConditionFires scenarioAccount.last_balance 2000
      scenarioAccount.drop_threshold = false := by
    simp only [dropConditionFires]
    exact decide_eq_false (by norm_num [scenarioAccount])
  rw [h0, checkStep_success (fun _ => .info true 2000) [777] 1 scenarioState0
    scenarioAccount 2000 rfl]
  simp only [hlow, hdrop, Bool.false_eq_true, if_false]
  rfl

lemma scenarioState2_eq :
    scenarioState2 =
      ⟨⟨[scenarioAccount2], [("acct-1", 2000), ("acct-1", 1400)],
        [⟨"acct-1", .balance_drop, 1400, 500⟩]⟩,
       [(777, ⟨"acct-1", .balance_drop, 1400, 500⟩)]⟩ := by
  have h0 : scenarioState2 =
      checkStep (fun _ => .info true 1400) [777] 2
        ⟨⟨[scenarioAccount1], [("acct-1", 2000)], []⟩, []⟩
        scenarioAccount1 := by
    unfold scenarioState2
    rw [scenarioState1_eq]
    rfl
  have hlow : lowConditionFires 1400 scenarioAccount1.low_balance_threshold
      = false := by
    simp only [lowConditionFires]
    exact decide_eq_false (by norm_num [scenarioAccount1])
  have hdrop : dropConditionFires scenarioAccount1.last_balance 1400
      scenarioAccount1.drop_threshold = true := by
    simp only [dropConditionFires]
    exact decide_eq_true ⟨by norm_num [scenarioAccount1],
      by norm_num [scenarioAccount1]⟩
  rw [h0, checkStep_success (fun _ => .info true 1400) [777] 2
    ⟨⟨[scenarioAccount1], [("acct-1", 2000)], []⟩, []⟩ scenarioAccount1
    1400 rfl]
  simp only [hlow, hdrop, Bool.false_eq_true, if_false, if_true]
  rfl

lemma scenarioState3_eq :
    scenarioState3 =
      ⟨⟨[⟨"acct-1", "demo", 1000, 500, 900, 0, 3⟩],
        [("acct-1", 2000), ("acct-1", 1400), ("acct-1", 900)],
        [⟨"acct-1", .balance_drop, 1400, 500⟩,
         ⟨"acct-1", .low_balance, 900, 1000⟩,
         ⟨"acct-1", .balance_drop, 900, 500⟩]⟩,
       [(777, ⟨"acct-1", .balance_drop, 1400, 500⟩),
        (777, ⟨"acct-1", .low_balance, 900, 1000⟩),
        (777, ⟨"acct-1", .balance_drop, 900, 500⟩)]⟩ := by
  have h0 : scenarioState3 =
      checkStep (fun _ => .info true 900) [777] 3
        ⟨⟨[scenarioAccount2], [("acct-1", 2000), ("acct-1", 1400)],
          [⟨"acct-1", .balance_drop, 1400, 500⟩]⟩,
         [(777, ⟨"acct-1", .balance_drop, 1400, 500⟩)]⟩
        scenarioAccount2 := by
    unfold scenarioState3
    rw [scenarioState2_eq]
    rfl
  have hlow : lowConditionFires 900 scenarioAccount2.low_balance_threshold
      = true := by
    simp only [lowConditionFires]
    exact decide_eq_true (by norm_num [scenarioAccount2])
  have hdrop : dropConditionFires scenarioAccount2.last_balance 900
      scenarioAccount2.drop_threshold = true := by
    simp only [dropConditionFires]
    exact decide_eq_true ⟨by norm_num [scenarioAccount2],
      by norm_num [scenarioAccount2]⟩
  rw [h0, checkStep_success (fun _ => .info true 900) [777] 3
    ⟨⟨[scenarioAccount2], [("acct-1", 2000), ("acct-1", 1400)],
      [⟨"acct-1", .balance_drop, 1400, 500⟩]⟩,
     [(777, ⟨"acct-1", .balance_drop, 1400, 500⟩)]⟩ scenarioAccount2
    900 rfl]
  simp only [hlow, hdrop, if_true]
  rfl

/-- C7: threshold evaluation uses the prior last_balance, captured before the
store update, as previous and the freshly fetched value as current; on the
spec section 8 scenario (low threshold 1000, drop threshold 500, stored
balance 0, checks returning 2000 then 1400 then 900) the first check records
no alert and stores balance 2000, the second records exactly one
balance_drop alert, and the third appends both a low_balance and a
balance_drop alert in the same cycle. -/
theorem scenario_three_checks :
    scenarioState1.db.alert_history = [] ∧
    scenarioState1.db.get_aliyun_account "acct-1" = some scenarioAccount1 ∧
    scenarioState2.db.alert_history =
      [⟨"acct-1", .balance_drop, 1400, 500⟩] ∧
    scenarioState3.db.alert_history =
      [⟨"acct-1", .balance_drop, 1400, 500⟩,
       ⟨"acct-1", .low_balance, 900, 1000⟩,
       ⟨"acct-1", .balance_drop, 900, 500⟩] := by
  refine ⟨?_, ?_, ?_, ?_⟩
  · rw [scenarioState1_eq]
  · rw [scenarioState1_eq]
    rfl
  · rw [scenarioState2_eq]
  · rw [scenarioState3_eq]
